import Mathlib

/-!
Shallow embedding of the host-side dispatch and argument-marshaling layer of
the xformers HIP FMHA bindings (`xformers/csrc/attention/hip_fmha`).

The C++ code under study selects pre-instantiated Composable Kernel (CK)
template specializations from runtime parameters, marshals strided-tensor
parameter structs into kernel argument layouts, and raises `std::runtime_error`
on unsupported configurations.  Each dispatcher below is translated into a pure
Lean function; a function that can throw returns `Except String α` where the
`String` is the exact `std::runtime_error` message, and a kernel launch is
represented by the argument record the launch would receive.  C++ `int` fields
become `Int`; C++ `float` fields that are only passed through (scale, dropout
probability) become `Rat`; device pointers become `Option Nat` with `none` for
`nullptr`.
-/

namespace HipFmha

/-- Host-side parameter struct `BatchedBackwardParams` (fields used by the
batched backward dispatchers in `ck_fmha_batched_backward_bp16.cpp` and
`ck_tiled_fmha_batched_backward_fp16.cpp`). -/
structure BatchedBackwardParams where
  custom_mask_type : Int
  has_attn_bias : Bool
  bias_has_grad : Bool
  K : Int
  Kv : Int
deriving Repr, DecidableEq

/-- Template arguments of one instantiation
`batched_backward_masktype_attnbias_dispatched<ck::bhalf_t, masktype, bias>`
selected by `batched_backward_bp16`. -/
structure Bp16BwdInstance where
  mask_type : Int
  has_attn_bias : Bool
deriving Repr, DecidableEq

/-- `batched_backward_bp16` from `ck_fmha_batched_backward_bp16.cpp`
(lines 6-30): three-way dispatch on `custom_mask_type` with a nested
`has_attn_bias` branch, throwing on any other mask value. -/
def batched_backward_bp16 (p : BatchedBackwardParams) :
    Except String Bp16BwdInstance :=
  if p.custom_mask_type = 0 then
    if p.has_attn_bias then .ok ⟨0, true⟩ else .ok ⟨0, false⟩
  else if p.custom_mask_type = 1 then
    if p.has_attn_bias then .ok ⟨1, true⟩ else .ok ⟨1, false⟩
  else if p.custom_mask_type = 2 then
    if p.has_attn_bias then .ok ⟨2, true⟩ else .ok ⟨2, false⟩
  else
    .error "Invalid custom_mask_type value"

/-- Template arguments of one instantiation
`run_batched_backward_causalmask_attnbias_dispatched<ck::half_t, causal, bias,
biasgrad, MaxK>` selected by `batched_backward_fp16`. -/
structure Fp16BwdInstance where
  has_causal_mask : Bool
  has_attn_bias : Bool
  has_bias_grad : Bool
  maxK : Int
deriving Repr, DecidableEq

/-- Modelled from the spec: the macro `FMHA_BWD_HEADDIM_SWITCH` lives in
`ck_tiled_headdim_switch.h`, which is not among the provided sources; per the
spec's "head dimension bucket" dispatch it binds the compile-time head-dim
bucket `MaxK` to the smallest of 32, 64, 128 that bounds both runtime head
dims, raising a runtime error when neither does.  The fp16 backward dispatcher
instantiates exactly the buckets 32, 64 and 128 (its `extern template` list). -/
def FMHA_BWD_HEADDIM_SWITCH (K Kv : Int)
    (body : Int → Except String Fp16BwdInstance) :
    Except String Fp16BwdInstance :=
  if K ≤ 32 ∧ Kv ≤ 32 then body 32
  else if K ≤ 64 ∧ Kv ≤ 64 then body 64
  else if K ≤ 128 ∧ Kv ≤ 128 then body 128
  else .error "Head-dim sizes not supported!"

/-- `batched_backward_fp16` from `ck_tiled_fmha_batched_backward_fp16.cpp`
(lines 56-86).  `BOOL_SWITCH_2` lifts the two runtime booleans to the
compile-time template arguments `HAS_ATTN_BIAS` and `HAS_BIAS_GRAD`; the
`if constexpr (HAS_ATTN_BIAS || !HAS_BIAS_GRAD)` guard rejects the
bias-gradient-without-bias combination, then the head-dim switch and the
mask-type dispatch select the instantiation. -/
def batched_backward_fp16 (p : BatchedBackwardParams) :
    Except String Fp16BwdInstance :=
  if p.has_attn_bias ∨ ¬ p.bias_has_grad then
    FMHA_BWD_HEADDIM_SWITCH p.K p.Kv (fun maxK =>
      if p.custom_mask_type = 0 then
        .ok ⟨false, p.has_attn_bias, p.bias_has_grad, maxK⟩
      else if p.custom_mask_type = 1 ∨ p.custom_mask_type = 2 then
        .ok ⟨true, p.has_attn_bias, p.bias_has_grad, maxK⟩
      else
        .error "Invalid custom_mask_type value")
  else
    .error "bias_has_grad should be false when has_attn_bias is false!"

/-- A C++ `std::array`/`std::vector` of per-dimension strides; the marshaling
code only ever reads indices 0..3. -/
structure Strides4 where
  s0 : Int
  s1 : Int
  s2 : Int
  s3 : Int
deriving Repr, DecidableEq

/-- Host-side parameter struct `GroupedForwardParams` (fields read by
`ck_tiled_fmha_grouped_infer.h` and `ck_tiled_fmha_grouped_forward.h`). -/
structure GroupedForwardParams where
  q_ptr : Option Nat
  k_ptr : Option Nat
  v_ptr : Option Nat
  attn_bias_ptr : Option Nat
  out_ptr : Option Nat
  logsumexp_ptr : Option Nat
  seqstart_q_dev_ptr : Option Nat
  seqstart_k_dev_ptr : Option Nat
  seqlen_k_dev_ptr : Option Nat
  K : Int
  Kv : Int
  Hq : Int
  Hkv : Int
  scale : Rat
  q_strides : Strides4
  k_strides : Strides4
  v_strides : Strides4
  out_strides : Strides4
  attn_bias_strides : Strides4
  lse_strides : Strides4
  custom_mask_type : Int
  window_size : Int
  dropout_prob : Rat
  philox_seed : Int
  philox_offset : Int
  num_batches : Int
  max_seqlen_q : Int

/-- Argument record produced by `FmhaKernel::MakeKargs` at the call site in
`grouped_infer_causalmask_attnbias_dispatched::RunWithKernel`
(`ck_tiled_fmha_grouped_infer.h` lines 119-160), one field per positional
argument.  `mask_type` holds the integer that
`static_cast<CausalMaskType>(param.custom_mask_type)` converts: the cast
performs no range check, so the raw value is carried through. -/
structure GroupedInferKargs where
  q_ptr : Option Nat
  k_ptr : Option Nat
  v_ptr : Option Nat
  bias_ptr : Option Nat
  rand_val_ptr : Option Nat
  lse_ptr : Option Nat
  out_ptr : Option Nat
  seqstart_q_ptr : Option Nat
  seqstart_k_ptr : Option Nat
  seqlen_k_ptr : Option Nat
  hdim_q : Int
  hdim_v : Int
  nhead_q : Int
  nhead_ratio_qk : Int
  scale : Rat
  stride_q : Int
  stride_k : Int
  stride_v : Int
  stride_bias : Int
  stride_randval : Int
  stride_out : Int
  nhead_stride_q : Int
  nhead_stride_k : Int
  nhead_stride_v : Int
  nhead_stride_bias : Int
  nhead_stride_randval : Int
  nhead_stride_lse : Int
  nhead_stride_out : Int
  batch_stride_lse : Int
  mask_type : Int
  window_size : Int
  descale_qk : Rat
  descale_sv : Rat
  dropout_prob : Rat
  is_store_randval : Bool
  drop_seed : Int
  drop_offset : Int

/-- The `FmhaKernel::MakeKargs` call inside
`grouped_infer_causalmask_attnbias_dispatched::RunWithKernel`
(`ck_tiled_fmha_grouped_infer.h` lines 120-160), one record field per
positional argument. -/
def grouped_infer_MakeKargs (p : GroupedForwardParams) : GroupedInferKargs :=
    { q_ptr := p.q_ptr
      k_ptr := p.k_ptr
      v_ptr := p.v_ptr
      bias_ptr := p.attn_bias_ptr
      rand_val_ptr := none
      lse_ptr := none
      out_ptr := p.out_ptr
      seqstart_q_ptr := p.seqstart_q_dev_ptr
      seqstart_k_ptr := p.seqstart_k_dev_ptr
      seqlen_k_ptr := p.seqlen_k_dev_ptr
      hdim_q := p.K
      hdim_v := p.Kv
      nhead_q := p.Hq
      nhead_ratio_qk := Int.tdiv p.Hq p.Hkv
      scale := p.scale
      stride_q := p.q_strides.s0
      stride_k := p.k_strides.s0
      stride_v := p.v_strides.s0
      stride_bias := p.attn_bias_strides.s2
      stride_randval := 0
      stride_out := p.out_strides.s0
      nhead_stride_q := p.q_strides.s1
      nhead_stride_k := p.k_strides.s1
      nhead_stride_v := p.v_strides.s1
      nhead_stride_bias := p.attn_bias_strides.s1
      nhead_stride_randval := 0
      nhead_stride_lse := 0
      nhead_stride_out := p.out_strides.s1
      batch_stride_lse := 0
      mask_type := p.custom_mask_type
      window_size := p.window_size
      descale_qk := 1
      descale_sv := 1
      dropout_prob := p.dropout_prob
      is_store_randval := false
      drop_seed := 0
      drop_offset := 0 }

/-- `grouped_infer_causalmask_attnbias_dispatched::RunWithKernel`
(`ck_tiled_fmha_grouped_infer.h` lines 119-174): unconditionally builds the
kernel arguments and launches; there is no validation and no throw on this
path, so the embedding always returns `.ok` with the marshaled arguments. -/
def grouped_infer_RunWithKernel (p : GroupedForwardParams) :
    Except String GroupedInferKargs :=
  .ok (grouped_infer_MakeKargs p)

/-- Argument record produced by `FmhaFwdKernel::MakeKargs` at the call site in
`grouped_forward_causalmask_bias_dropout_dispatch::RunWithKernel`
(`ck_tiled_fmha_grouped_forward.h` lines 114-157); this kernel takes explicit
left/right window sizes instead of a window-size field. -/
structure GroupedFwdKargs where
  q_ptr : Option Nat
  k_ptr : Option Nat
  v_ptr : Option Nat
  bias_ptr : Option Nat
  rand_val_ptr : Option Nat
  lse_ptr : Option Nat
  out_ptr : Option Nat
  seqstart_q_ptr : Option Nat
  seqstart_k_ptr : Option Nat
  seqlen_k_ptr : Option Nat
  hdim_q : Int
  hdim_v : Int
  nhead_q : Int
  nhead_ratio_qk : Int
  scale : Rat
  stride_q : Int
  stride_k : Int
  stride_v : Int
  stride_bias : Int
  stride_randval : Int
  stride_out : Int
  nhead_stride_q : Int
  nhead_stride_k : Int
  nhead_stride_v : Int
  nhead_stride_bias : Int
  nhead_stride_randval : Int
  nhead_stride_lse : Int
  nhead_stride_out : Int
  batch_stride_lse : Int
  window_left_size : Int
  window_right_size : Int
  mask_type : Int
  descale_qk : Rat
  descale_sv : Rat
  dropout_prob : Rat
  is_store_randval : Bool
  drop_seed : Int
  drop_offset : Int

/-- The `FmhaFwdKernel::MakeKargs` call inside
`grouped_forward_causalmask_bias_dropout_dispatch::RunWithKernel`
(`ck_tiled_fmha_grouped_forward.h` lines 115-157), one record field per
positional argument; the Philox seed and offset are forwarded from the
parameter struct. -/
def grouped_forward_MakeKargs (p : GroupedForwardParams) : GroupedFwdKargs :=
    { q_ptr := p.q_ptr
      k_ptr := p.k_ptr
      v_ptr := p.v_ptr
      bias_ptr := p.attn_bias_ptr
      rand_val_ptr := none
      lse_ptr := p.logsumexp_ptr
      out_ptr := p.out_ptr
      seqstart_q_ptr := p.seqstart_q_dev_ptr
      seqstart_k_ptr := p.seqstart_k_dev_ptr
      seqlen_k_ptr := p.seqlen_k_dev_ptr
      hdim_q := p.K
      hdim_v := p.Kv
      nhead_q := p.Hq
      nhead_ratio_qk := Int.tdiv p.Hq p.Hkv
      scale := p.scale
      stride_q := p.q_strides.s0
      stride_k := p.k_strides.s0
      stride_v := p.v_strides.s0
      stride_bias := p.attn_bias_strides.s2
      stride_randval := 0
      stride_out := p.out_strides.s0
      nhead_stride_q := p.q_strides.s1
      nhead_stride_k := p.k_strides.s1
      nhead_stride_v := p.v_strides.s1
      nhead_stride_bias := p.attn_bias_strides.s1
      nhead_stride_randval := 0
      nhead_stride_lse := p.lse_strides.s1
      nhead_stride_out := p.out_strides.s1
      batch_stride_lse := p.lse_strides.s0
      window_left_size := if p.window_size > 0 then p.window_size - 1 else -1
      window_right_size := if p.custom_mask_type = 0 then -1 else 0
      mask_type := p.custom_mask_type
      descale_qk := 1
      descale_sv := 1
      dropout_prob := p.dropout_prob
      is_store_randval := false
      drop_seed := p.philox_seed
      drop_offset := p.philox_offset }

/-- `grouped_forward_causalmask_bias_dropout_dispatch::RunWithKernel`
(`ck_tiled_fmha_grouped_forward.h` lines 113-171): unconditional marshal and
launch. -/
def grouped_forward_RunWithKernel (p : GroupedForwardParams) :
    Except String GroupedFwdKargs :=
  .ok (grouped_forward_MakeKargs p)

/-- Mask selection made by `grouped_forward_causalmask_bias_dropout_dispatch::Run`
(`ck_tiled_fmha_grouped_forward.h` lines 56-63): the pipeline's
`SimplifiedGenericAttentionMask<has_masking>` flag is
`kHasCausalMask || USE_LOCAL_ATTENTION`, where `USE_LOCAL_ATTENTION` is the
lifted value of `param.window_size > 0`. -/
def grouped_forward_has_masking (kHasCausalMask : Bool)
    (p : GroupedForwardParams) : Bool :=
  kHasCausalMask || decide (p.window_size > 0)

/-- Host-side parameter struct `BatchedForwardParams` (fields read by
`batched_infer_masktype_attnbias_dispatched` in `ck_fmha_batched_infer.h`). -/
structure BatchedForwardParams where
  B : Int
  num_heads : Int
  M : Int
  N : Int
  K : Int
  Kv : Int
  q_ptr : Option Nat
  k_ptr : Option Nat
  v_ptr : Option Nat
  out_ptr : Option Nat
  attn_bias_ptr : Option Nat
  q_strides : Strides4
  k_strides : Strides4
  v_strides : Strides4
  out_strides : Strides4
  attn_bias_strides : Strides4
  scale : Rat
  has_attn_bias : Bool

/-- Argument record built by `op.MakeArgumentPointer` in
`batched_infer_masktype_attnbias_dispatched::RunWithDeviceOp`
(`ck_fmha_batched_infer.h` lines 176-263): the G/M/N/K/O lengths and strides
for the four GEMM tensors and the optional bias, plus the `Scale` element-op
value `alpha = param.scale`. -/
structure CkInferArgs where
  q_ptr : Option Nat
  k_ptr : Option Nat
  v_ptr : Option Nat
  out_ptr : Option Nat
  bias_ptr : Option Nat
  a_gs_ms_ks_lengths : List Int
  a_gs_ms_ks_strides : List Int
  b0_gs_ns_ks_lengths : List Int
  b0_gs_ns_ks_strides : List Int
  b1_gs_os_ns_lengths : List Int
  b1_gs_os_ns_strides : List Int
  c_gs_ms_os_lengths : List Int
  c_gs_ms_os_strides : List Int
  d_gs_ms_ns_lengths : List Int
  d_gs_ms_ns_strides : List Int
  acc0_scale : Rat

/-- The marshaling performed by `RunWithDeviceOp` before the support check.
`tHasAttnBias` is the compile-time template argument `has_attn_bias` of the
dispatcher struct: the `if constexpr (has_attn_bias)` choosing the bias
lengths/strides reads it, while the bias pointer reads the runtime field
`param.has_attn_bias`. -/
def mkCkInferArgs (tHasAttnBias : Bool) (p : BatchedForwardParams) :
    CkInferArgs :=
  { q_ptr := p.q_ptr
    k_ptr := p.k_ptr
    v_ptr := p.v_ptr
    out_ptr := p.out_ptr
    bias_ptr := if p.has_attn_bias then p.attn_bias_ptr else none
    a_gs_ms_ks_lengths := [p.B, p.num_heads, p.M, p.K]
    a_gs_ms_ks_strides :=
      [p.q_strides.s0, p.q_strides.s2, p.q_strides.s1, p.q_strides.s3]
    b0_gs_ns_ks_lengths := [p.B, p.num_heads, p.N, p.K]
    b0_gs_ns_ks_strides :=
      [p.k_strides.s0, p.k_strides.s2, p.k_strides.s1, p.k_strides.s3]
    b1_gs_os_ns_lengths := [p.B, p.num_heads, p.Kv, p.N]
    b1_gs_os_ns_strides :=
      [p.v_strides.s0, p.v_strides.s2, p.v_strides.s3, p.v_strides.s1]
    c_gs_ms_os_lengths := [p.B, p.num_heads, p.M, p.Kv]
    c_gs_ms_os_strides :=
      [p.out_strides.s0, p.out_strides.s2, p.out_strides.s1, p.out_strides.s3]
    d_gs_ms_ns_lengths :=
      if tHasAttnBias then [p.B, p.num_heads, p.M, p.N] else [1, 1, 1, 1]
    d_gs_ms_ns_strides :=
      if tHasAttnBias then
        [p.attn_bias_strides.s0, p.attn_bias_strides.s1,
          p.attn_bias_strides.s2, p.attn_bias_strides.s3]
      else [0, 0, 0, 0]
    acc0_scale := p.scale }

/-- Interface of the CK `DeviceOpInstance` as used by `RunWithDeviceOp`: the
library-provided argument validity predicate and diagnostic type string.  The
implementations live in the external CK library. -/
structure DeviceOp where
  isSupportedArgument : CkInferArgs → Bool
  getTypeString : String

/-- Control flow of `RunWithDeviceOp` (`ck_fmha_batched_infer.h` lines
265-277): after marshaling the arguments, throw
`GetTypeString() + " does not support this problem"` when the instantiation
rejects them, otherwise run the invoker on them (represented by `.ok` carrying
the arguments the invoker receives). -/
def RunWithDeviceOp (op : DeviceOp) (tHasAttnBias : Bool)
    (p : BatchedForwardParams) : Except String CkInferArgs :=
  let args := mkCkInferArgs tHasAttnBias p
  if op.isSupportedArgument args then .ok args
  else .error (op.getTypeString ++ " does not support this problem")

/-- The three compile-time tile constants fixed in each branch of
`batched_infer_masktype_attnbias_dispatched::Run`. -/
structure InferTileConfig where
  kGemm1NPerBlock : Int
  kGemm1NXdlPerWave : Int
  kCShuffleNXdlPerWavePerShuffle : Int
deriving Repr, DecidableEq

/-- Head-dimension tile selection of `Run` (`ck_fmha_batched_infer.h` lines
139-174), one branch per configuration. -/
def batched_infer_tile_select (K Kv : Int) : InferTileConfig :=
  if K ≤ 32 ∧ Kv ≤ 32 then ⟨32, 1, 1⟩
  else if K ≤ 64 ∧ Kv ≤ 64 then ⟨64, 2, 2⟩
  else ⟨128, 4, 4⟩

/-- `batched_infer_masktype_attnbias_dispatched::Run`: selects the tile
configuration from `param.K`/`param.Kv` and hands the parameter struct to
`RunWithDeviceOp` with the corresponding `DeviceOpInstance` (`ops` maps each
tile configuration to its pre-built CK instantiation). -/
def batched_infer_Run (ops : InferTileConfig → DeviceOp) (tHasAttnBias : Bool)
    (p : BatchedForwardParams) : Except String CkInferArgs :=
  if p.K ≤ 32 ∧ p.Kv ≤ 32 then
    RunWithDeviceOp (ops ⟨32, 1, 1⟩) tHasAttnBias p
  else if p.K ≤ 64 ∧ p.Kv ≤ 64 then
    RunWithDeviceOp (ops ⟨64, 2, 2⟩) tHasAttnBias p
  else
    RunWithDeviceOp (ops ⟨128, 4, 4⟩) tHasAttnBias p

/-- ATen scalar dtypes that appear in this code. -/
inductive ATenScalarType where
  | int32
  | half
  | bfloat16
deriving Repr, DecidableEq

/-- The sizes of a 4-dimensional `at::Tensor` as read by
`rand_uniform_int` (`size(0)` .. `size(3)`). -/
structure TensorSizes4 where
  sz0 : Int
  sz1 : Int
  sz2 : Int
  sz3 : Int
deriving Repr, DecidableEq

/-- State of the default CUDA Philox generator: a seed and a running counter
offset (ATen framework state, external to the repo). -/
structure GenState where
  seed : Int
  offset : Int
deriving Repr, DecidableEq

/-- The seed/offset pair captured by `gen->philox_cuda_state(increment)`:
ATen returns the current seed and offset and advances the offset by the
requested increment for the next capture. -/
structure PhiloxCudaState where
  seed : Int
  offset : Int
deriving Repr, DecidableEq

/-- ATen `philox_cuda_state`: capture the current state, reserve `increment`
counters. -/
def philox_cuda_state (gen : GenState) (increment : Int) :
    PhiloxCudaState × GenState :=
  (⟨gen.seed, gen.offset⟩, ⟨gen.seed, gen.offset + increment⟩)

/-- Strides of the freshly allocated contiguous tensor
`at::empty({B, num_heads, M, N}, ...)`: row-major, innermost stride 1. -/
def contiguousStrides4 (_B num_heads M N : Int) : Strides4 :=
  ⟨num_heads * M * N, M * N, N, 1⟩

/-- Argument record of `FmhaRandUniformKernel_::MakeKargs` at the call site in
`rand_uniform_int` (`attention_ck_rand_uniform.cpp` lines 63-73), one field
per positional argument after the output data pointer. -/
structure RandKernelKargs where
  M : Int
  N : Int
  num_heads : Int
  B : Int
  stride_seq : Int
  stride_key : Int
  stride_head : Int
  stride_batch : Int
  seed : Int
  offset : Int
deriving Repr, DecidableEq

/-- Observable result of `rand_uniform_int` on the host side: the metadata of
the freshly allocated output tensor, the counter increment requested from the
generator, the captured Philox state, and the kernel arguments launched. -/
structure RandUniformResult where
  shape : List Int
  dtype : ATenScalarType
  increment : Int
  captured : PhiloxCudaState
  kargs : RandKernelKargs
deriving Repr, DecidableEq

/-- `rand_uniform_int` (`attention_ck_rand_uniform.cpp` lines 27-91): read the
four sizes of `out_pattern`, capture Philox state under the generator lock with
increment `B * num_heads * M * N`, allocate a contiguous
`{B, num_heads, M, N}` tensor with `Int` dtype, and launch
`FmhaRandUniformKernel` with the tensor's strides and the captured seed and
offset.  `dropout_prob` is accepted but never read. -/
def rand_uniform_int (_dropout_prob : Rat) (out_pattern : TensorSizes4)
    (gen : GenState) : RandUniformResult × GenState :=
  let B := out_pattern.sz0
  let num_heads := out_pattern.sz1
  let M := out_pattern.sz2
  let N := out_pattern.sz3
  let cap := philox_cuda_state gen (B * num_heads * M * N)
  let strides := contiguousStrides4 B num_heads M N
  (⟨[B, num_heads, M, N], ATenScalarType.int32, B * num_heads * M * N, cap.1,
      ⟨M, N, num_heads, B, strides.s2, strides.s3, strides.s1, strides.s0,
        cap.1.seed, cap.1.offset⟩⟩,
    cap.2)

/-- Whether control reaches the CK invoker (equivalently, the kernel launch):
`true` exactly when no `std::runtime_error` was thrown on the way. -/
def runsInvoker {α : Type} : Except String α → Bool
  | .ok _ => true
  | .error _ => false

/-- A concrete grouped-forward/inference parameter struct used to instantiate
the dispatch theorems. -/
def gBase : GroupedForwardParams :=
  { q_ptr := some 16
    k_ptr := some 32
    v_ptr := some 48
    attn_bias_ptr := some 64
    out_ptr := some 80
    logsumexp_ptr := some 96
    seqstart_q_dev_ptr := some 112
    seqstart_k_dev_ptr := some 128
    seqlen_k_dev_ptr := none
    K := 64
    Kv := 64
    Hq := 8
    Hkv := 2
    scale := 1/8
    q_strides := ⟨4096, 64, 512, 1⟩
    k_strides := ⟨4096, 64, 512, 1⟩
    v_strides := ⟨4096, 64, 512, 1⟩
    out_strides := ⟨4096, 64, 512, 1⟩
    attn_bias_strides := ⟨8192, 1024, 128, 1⟩
    lse_strides := ⟨1024, 128, 0, 0⟩
    custom_mask_type := 0
    window_size := 0
    dropout_prob := 0
    philox_seed := 2024
    philox_offset := 16
    num_batches := 2
    max_seqlen_q := 128 }

/-- The same grouped parameter struct carrying the unrecognized mask-type
value 3 (outside `{0, 1, 2}`). -/
def gParamsMask3 : GroupedForwardParams := { gBase with custom_mask_type := 3 }

/-- The same grouped parameter struct with local attention enabled
(`window_size = 5`). -/
def gWin5 : GroupedForwardParams := { gBase with window_size := 5 }

/-- A batched-backward parameter struct carrying the unrecognized mask-type
value 3. -/
def pMask3 : BatchedBackwardParams :=
  { custom_mask_type := 3
    has_attn_bias := true
    bias_has_grad := false
    K := 32
    Kv := 32 }

/-- A concrete batched-forward parameter struct (no attention bias). -/
def bfBase : BatchedForwardParams :=
  { B := 2
    num_heads := 3
    M := 8
    N := 16
    K := 4
    Kv := 4
    q_ptr := some 16
    k_ptr := some 32
    v_ptr := some 48
    out_ptr := some 64
    attn_bias_ptr := some 80
    q_strides := ⟨96, 4, 12, 1⟩
    k_strides := ⟨192, 4, 12, 1⟩
    v_strides := ⟨192, 4, 12, 1⟩
    out_strides := ⟨96, 4, 12, 1⟩
    attn_bias_strides := ⟨384, 128, 16, 1⟩
    scale := 1/2
    has_attn_bias := false }

/-- A CK device-op instantiation that rejects every marshaled argument, with
the diagnostic type string the library would report. -/
def opUnsupported : DeviceOp :=
  { isSupportedArgument := fun _ => false
    getTypeString := "DeviceBatchedMultiheadAttentionInfer_Xdl_CShuffle" }

/-- A CK device-op instantiation that accepts every marshaled argument. -/
def opSupported : DeviceOp :=
  { isSupportedArgument := fun _ => true
    getTypeString := "DeviceBatchedMultiheadAttentionInfer_Xdl_CShuffle" }

/-- Claim C1, counterexample: the claim asserts that an unrecognized
mask-type value raises a runtime error before any kernel launch at every
dispatch layer, including the grouped inference path.  At the concrete
parameter struct with `custom_mask_type = 3`, the grouped inference
`RunWithKernel` raises no error: it launches the kernel, and the kernel
arguments carry the raw value 3 produced by the unchecked `static_cast`. -/
theorem C1_grouped_infer_no_mask_check :
    gParamsMask3.custom_mask_type = 3 ∧
    grouped_infer_RunWithKernel gParamsMask3 =
      .ok (grouped_infer_MakeKargs gParamsMask3) ∧
    (grouped_infer_MakeKargs gParamsMask3).mask_type = 3 :=
  ⟨rfl, rfl, rfl⟩

/-- The head-dim switch returns the common value of its body whenever the
head dims fit the largest instantiated bucket. -/
theorem FMHA_BWD_HEADDIM_SWITCH_const (K Kv : Int)
    (body : Int → Except String Fp16BwdInstance)
    (e : Except String Fp16BwdInstance) (hb : ∀ m, body m = e)
    (hK : K ≤ 128) (hKv : Kv ≤ 128) :
    FMHA_BWD_HEADDIM_SWITCH K Kv body = e := by
  unfold FMHA_BWD_HEADDIM_SWITCH
  split_ifs with c1 c2 c3
  · exact hb 32
  · exact hb 64
  · exact hb 128
  · exact absurd ⟨hK, hKv⟩ c3

/-- Claim C1, amended: `batched_backward_bp16` throws
`std::runtime_error("Invalid custom_mask_type value")` whenever
`custom_mask_type` is outside `{0, 1, 2}`, and so does `batched_backward_fp16`
provided its bias-gradient guard and head-dim switch let control reach the
mask dispatch; the grouped inference `RunWithKernel` layer, by contrast,
performs no mask-type validation: it never throws and passes the raw
`custom_mask_type` value through `static_cast` to the kernel it launches. -/
theorem backward_mask_type_errors (p : BatchedBackwardParams)
    (g : GroupedForwardParams)
    (hm : ¬(p.custom_mask_type = 0 ∨ p.custom_mask_type = 1 ∨
      p.custom_mask_type = 2)) :
    batched_backward_bp16 p = .error "Invalid custom_mask_type value" ∧
    ((p.has_attn_bias ∨ ¬ p.bias_has_grad) → p.K ≤ 128 → p.Kv ≤ 128 →
      batched_backward_fp16 p = .error "Invalid custom_mask_type value") ∧
    grouped_infer_RunWithKernel g = .ok (grouped_infer_MakeKargs g) ∧
    (grouped_infer_MakeKargs g).mask_type = g.custom_mask_type := by
  push_neg at hm
  obtain ⟨h0, h1, h2⟩ := hm
  refine ⟨?_, ?_, rfl, rfl⟩
  · simp [batched_backward_bp16, h0, h1, h2]
  · intro hg hK hKv
    simp only [batched_backward_fp16, if_pos hg]
    refine FMHA_BWD_HEADDIM_SWITCH_const _ _ _ _ (fun m => ?_) hK hKv
    simp [h0, h1, h2]

/-- Claim C1, witness: the amended theorem applied at the mask-type value 3,
for both batched backward dispatchers and the grouped inference layer. -/
theorem backward_mask_type_errors_witness :
    batched_backward_bp16 pMask3 = .error "Invalid custom_mask_type value" ∧
    batched_backward_fp16 pMask3 = .error "Invalid custom_mask_type value" ∧
    grouped_infer_RunWithKernel gParamsMask3 =
      .ok (grouped_infer_MakeKargs gParamsMask3) ∧
    (grouped_infer_MakeKargs gParamsMask3).mask_type =
      gParamsMask3.custom_mask_type := by
  obtain ⟨a, b, c, d⟩ :=
    backward_mask_type_errors pMask3 gParamsMask3 (by decide)
  exact ⟨a, b (by decide) (by decide) (by decide), c, d⟩

/-- Claim C2: in `batched_infer_masktype_attnbias_dispatched::RunWithDeviceOp`,
when `IsSupportedArgument` rejects the marshaled arguments a runtime error
with message `GetTypeString() ++ " does not support this problem"` is thrown
and the invoker is not run; the invoker runs exactly when
`IsSupportedArgument` accepts. -/
theorem RunWithDeviceOp_support_check (op : DeviceOp) (tb : Bool)
    (p : BatchedForwardParams) :
    (op.isSupportedArgument (mkCkInferArgs tb p) = false →
      RunWithDeviceOp op tb p =
        .error (op.getTypeString ++ " does not support this problem")) ∧
    (op.isSupportedArgument (mkCkInferArgs tb p) = true →
      RunWithDeviceOp op tb p = .ok (mkCkInferArgs tb p)) ∧
    (runsInvoker (RunWithDeviceOp op tb p) = true ↔
      op.isSupportedArgument (mkCkInferArgs tb p) = true) := by
  unfold RunWithDeviceOp
  cases h : op.isSupportedArgument (mkCkInferArgs tb p) <;>
    simp [h, runsInvoker]

/-- Claim C2, witness: the support check instantiated with an all-rejecting
and an all-accepting device op at a concrete parameter struct. -/
theorem RunWithDeviceOp_support_check_witness :
    RunWithDeviceOp opUnsupported true bfBase =
      .error ("DeviceBatchedMultiheadAttentionInfer_Xdl_CShuffle" ++
        " does not support this problem") ∧
    RunWithDeviceOp opSupported true bfBase = .ok (mkCkInferArgs true bfBase) :=
  ⟨(RunWithDeviceOp_support_check opUnsupported true bfBase).1 rfl,
    (RunWithDeviceOp_support_check opSupported true bfBase).2.1 rfl⟩

/-- Claim C3: `batched_backward_fp16` throws
`std::runtime_error("bias_has_grad should be false when has_attn_bias is
false!")` exactly on the combination `bias_has_grad = true` with
`has_attn_bias = false`, invoking no template instantiation in that case; with
`has_attn_bias = true` or `bias_has_grad = false` that error never occurs. -/
theorem batched_backward_fp16_bias_grad_guard (p : BatchedBackwardParams) :
    (p.bias_has_grad = true → p.has_attn_bias = false →
      batched_backward_fp16 p =
        .error "bias_has_grad should be false when has_attn_bias is false!") ∧
    (p.has_attn_bias = true ∨ p.bias_has_grad = false →
      batched_backward_fp16 p ≠
        .error "bias_has_grad should be false when has_attn_bias is false!") := by
  constructor
  · intro hbg hab
    simp [batched_backward_fp16, hbg, hab]
  · intro hor
    have hg : (p.has_attn_bias ∨ ¬ p.bias_has_grad) := by
      rcases hor with h | h
      · exact Or.inl (by simp [h])
      · exact Or.inr (by simp [h])
    simp only [batched_backward_fp16, if_pos hg, FMHA_BWD_HEADDIM_SWITCH]
    split_ifs <;> simp

/-- Claim C3, witness: the guard applied at the rejected combination
(`bias_has_grad` without `has_attn_bias`) and at an accepted one. -/
theorem batched_backward_fp16_bias_grad_guard_witness :
    batched_backward_fp16 ⟨0, false, true, 32, 32⟩ =
      .error "bias_has_grad should be false when has_attn_bias is false!" ∧
    batched_backward_fp16 ⟨0, true, true, 32, 32⟩ ≠
      .error "bias_has_grad should be false when has_attn_bias is false!" :=
  ⟨(batched_backward_fp16_bias_grad_guard ⟨0, false, true, 32, 32⟩).1 rfl rfl,
    (batched_backward_fp16_bias_grad_guard ⟨0, true, true, 32, 32⟩).2
      (Or.inl rfl)⟩

/-- A concrete batched-backward parameter struct with `custom_mask_type = 1`,
attention bias present and no bias gradient. -/
def p4 : BatchedBackwardParams :=
  { custom_mask_type := 1
    has_attn_bias := true
    bias_has_grad := false
    K := 16
    Kv := 16 }

/-- The bp16 instantiation selected at `p4`. -/
def ib4 : Bp16BwdInstance := ⟨1, true⟩

/-- The fp16 instantiation selected at `p4`. -/
def it4 : Fp16BwdInstance := ⟨true, true, false, 32⟩

/-- Claim C4: whichever instantiation the batched backward dispatchers invoke
is determined exactly by the runtime parameters: `batched_backward_bp16`
passes `custom_mask_type` directly as the integer template argument,
`batched_backward_fp16` sets the causal-mask flag to false exactly for mask
type 0 and to true exactly for mask types 1 and 2, and both forward the bias
(and, for fp16, bias-gradient) booleans unchanged. -/
theorem batched_backward_template_selection (p : BatchedBackwardParams)
    (ib : Bp16BwdInstance) (it : Fp16BwdInstance) :
    (batched_backward_bp16 p = .ok ib →
      ib.mask_type = p.custom_mask_type ∧
      ib.has_attn_bias = p.has_attn_bias) ∧
    (batched_backward_fp16 p = .ok it →
      (it.has_causal_mask = false ↔ p.custom_mask_type = 0) ∧
      (it.has_causal_mask = true ↔
        (p.custom_mask_type = 1 ∨ p.custom_mask_type = 2)) ∧
      it.has_attn_bias = p.has_attn_bias ∧
      it.has_bias_grad = p.bias_has_grad) := by
  constructor
  · intro h
    unfold batched_backward_bp16 at h
    split_ifs at h
    all_goals injection h with h
    all_goals (subst h; simp_all)
  · intro h
    unfold batched_backward_fp16 FMHA_BWD_HEADDIM_SWITCH at h
    split_ifs at h
    all_goals injection h with h
    all_goals (subst h; simp_all)

/-- Claim C4, witness: the selection theorem applied at `p4`, whose bp16
dispatch selects mask-type 1 with bias and whose fp16 dispatch selects the
causal-mask instantiation in the 32 head-dim bucket. -/
theorem batched_backward_template_selection_witness :
    ib4.mask_type = p4.custom_mask_type ∧
    ib4.has_attn_bias = p4.has_attn_bias ∧
    (it4.has_causal_mask = false ↔ p4.custom_mask_type = 0) ∧
    (it4.has_causal_mask = true ↔
      (p4.custom_mask_type = 1 ∨ p4.custom_mask_type = 2)) ∧
    it4.has_attn_bias = p4.has_attn_bias ∧
    it4.has_bias_grad = p4.bias_has_grad := by
  obtain ⟨f, s⟩ := batched_backward_template_selection p4 ib4 it4
  obtain ⟨a, b⟩ := f rfl
  obtain ⟨c, d, e, g⟩ := s rfl
  exact ⟨a, b, c, d, e, g⟩

/-- Claim C5: `batched_infer_masktype_attnbias_dispatched::Run` picks the
32 head-dim tile exactly when both `K` and `Kv` are at most 32, else the 64
tile exactly when both are at most 64, else the 128 tile; the selection is
total and `Run` always delegates to `RunWithDeviceOp` with the selected
instantiation, for every `K` and `Kv` including values above 128. -/
theorem batched_infer_Run_tile_selection (K Kv : Int)
    (ops : InferTileConfig → DeviceOp) (tb : Bool)
    (p : BatchedForwardParams) :
    ((batched_infer_tile_select K Kv).kGemm1NPerBlock = 32 ↔
      K ≤ 32 ∧ Kv ≤ 32) ∧
    ((batched_infer_tile_select K Kv).kGemm1NPerBlock = 64 ↔
      ¬(K ≤ 32 ∧ Kv ≤ 32) ∧ K ≤ 64 ∧ Kv ≤ 64) ∧
    ((batched_infer_tile_select K Kv).kGemm1NPerBlock = 128 ↔
      ¬(K ≤ 32 ∧ Kv ≤ 32) ∧ ¬(K ≤ 64 ∧ Kv ≤ 64)) ∧
    batched_infer_Run ops tb p =
      RunWithDeviceOp (ops (batched_infer_tile_select p.K p.Kv)) tb p := by
  refine ⟨?_, ?_, ?_, ?_⟩
  · unfold batched_infer_tile_select
    split_ifs <;> simp_all
  · unfold batched_infer_tile_select
    split_ifs <;> simp_all
  · unfold batched_infer_tile_select
    split_ifs <;> simp_all
  · unfold batched_infer_tile_select batched_infer_Run
    split_ifs <;> simp_all

/-- Claim C6: the argument marshaling of `RunWithDeviceOp` lays out the Q
tensor as lengths `{B, num_heads, M, K}` with strides permuted to indices
0, 2, 1, 3 of `q_strides`, the V tensor as lengths `{B, num_heads, Kv, N}`
with strides at indices 0, 2, 3, 1 of `v_strides`, hands `param.scale` to the
`Scale` element-op, and when the bias is absent passes a null bias pointer
with lengths `{1,1,1,1}` and strides `{0,0,0,0}`. -/
theorem mkCkInferArgs_marshal (tb : Bool) (p : BatchedForwardParams) :
    (mkCkInferArgs tb p).a_gs_ms_ks_lengths =
      [p.B, p.num_heads, p.M, p.K] ∧
    (mkCkInferArgs tb p).a_gs_ms_ks_strides =
      [p.q_strides.s0, p.q_strides.s2, p.q_strides.s1, p.q_strides.s3] ∧
    (mkCkInferArgs tb p).b1_gs_os_ns_lengths =
      [p.B, p.num_heads, p.Kv, p.N] ∧
    (mkCkInferArgs tb p).b1_gs_os_ns_strides =
      [p.v_strides.s0, p.v_strides.s2, p.v_strides.s3, p.v_strides.s1] ∧
    (mkCkInferArgs tb p).acc0_scale = p.scale ∧
    (tb = false → p.has_attn_bias = false →
      (mkCkInferArgs tb p).bias_ptr = none ∧
      (mkCkInferArgs tb p).d_gs_ms_ns_lengths = [1, 1, 1, 1] ∧
      (mkCkInferArgs tb p).d_gs_ms_ns_strides = [0, 0, 0, 0]) := by
  refine ⟨rfl, rfl, rfl, rfl, rfl, ?_⟩
  rintro rfl hb
  simp [mkCkInferArgs, hb]

/-- Claim C6, witness: the marshaling theorem applied at the concrete
bias-free parameter struct with the bias-free template instantiation. -/
theorem mkCkInferArgs_marshal_witness :
    (mkCkInferArgs false bfBase).a_gs_ms_ks_lengths =
      [bfBase.B, bfBase.num_heads, bfBase.M, bfBase.K] ∧
    (mkCkInferArgs false bfBase).a_gs_ms_ks_strides =
      [bfBase.q_strides.s0, bfBase.q_strides.s2, bfBase.q_strides.s1,
        bfBase.q_strides.s3] ∧
    (mkCkInferArgs false bfBase).b1_gs_os_ns_lengths =
      [bfBase.B, bfBase.num_heads, bfBase.Kv, bfBase.N] ∧
    (mkCkInferArgs false bfBase).b1_gs_os_ns_strides =
      [bfBase.v_strides.s0, bfBase.v_strides.s2, bfBase.v_strides.s3,
        bfBase.v_strides.s1] ∧
    (mkCkInferArgs false bfBase).acc0_scale = bfBase.scale ∧
    (mkCkInferArgs false bfBase).bias_ptr = none ∧
    (mkCkInferArgs false bfBase).d_gs_ms_ns_lengths = [1, 1, 1, 1] ∧
    (mkCkInferArgs false bfBase).d_gs_ms_ns_strides = [0, 0, 0, 0] := by
  obtain ⟨a, b, c, d, e, f⟩ := mkCkInferArgs_marshal false bfBase
  obtain ⟨g, h, i⟩ := f rfl rfl
  exact ⟨a, b, c, d, e, g, h, i⟩

/-- Claim C7: for every 4-dimensional pattern tensor and dropout probability,
`rand_uniform_int` allocates a fresh tensor shaped
`[size(0), size(1), size(2), size(3)]` with `Int` dtype, requests a Philox
counter increment of exactly `B * num_heads * M * N` from the default CUDA
generator, and passes the captured seed and offset to the kernel arguments. -/
theorem rand_uniform_int_host_contract (dp : Rat) (pat : TensorSizes4)
    (gen : GenState) :
    (rand_uniform_int dp pat gen).1.shape =
      [pat.sz0, pat.sz1, pat.sz2, pat.sz3] ∧
    (rand_uniform_int dp pat gen).1.dtype = ATenScalarType.int32 ∧
    (rand_uniform_int dp pat gen).1.increment =
      pat.sz0 * pat.sz1 * pat.sz2 * pat.sz3 ∧
    (rand_uniform_int dp pat gen).1.captured = ⟨gen.seed, gen.offset⟩ ∧
    (rand_uniform_int dp pat gen).1.kargs.seed =
      (rand_uniform_int dp pat gen).1.captured.seed ∧
    (rand_uniform_int dp pat gen).1.kargs.offset =
      (rand_uniform_int dp pat gen).1.captured.offset :=
  ⟨rfl, rfl, rfl, rfl, rfl, rfl⟩

/-- Claim C8: two calls of `rand_uniform_int` that capture equal Philox seeds
and offsets on pattern tensors of equal shape hand identical arguments to the
random-value kernel, so any (deterministic) kernel function of those arguments
produces equal output tensors — the stream depends only on seed and offset. -/
theorem rand_uniform_int_deterministic (T : Type)
    (kernel : RandKernelKargs → T) (dp1 dp2 : Rat)
    (pat1 pat2 : TensorSizes4) (g1 g2 : GenState) (hpat : pat1 = pat2)
    (hseed : g1.seed = g2.seed) (hoff : g1.offset = g2.offset) :
    (rand_uniform_int dp1 pat1 g1).1.kargs =
      (rand_uniform_int dp2 pat2 g2).1.kargs ∧
    kernel (rand_uniform_int dp1 pat1 g1).1.kargs =
      kernel (rand_uniform_int dp2 pat2 g2).1.kargs := by
  subst hpat
  have hg : g1 = g2 := by
    cases g1; cases g2; simp_all
  subst hg
  exact ⟨rfl, rfl⟩

/-- A concrete pattern-tensor shape for the determinism witness. -/
def patW : TensorSizes4 := ⟨2, 3, 4, 5⟩

/-- A concrete generator state for the determinism witness. -/
def genW : GenState := ⟨7, 9⟩

/-- Claim C8, witness: determinism instantiated at a concrete shape and
generator state, with two different dropout probabilities and the seed
projection as the kernel function. -/
theorem rand_uniform_int_deterministic_witness :
    (rand_uniform_int 0 patW genW).1.kargs =
      (rand_uniform_int (1/2) patW genW).1.kargs ∧
    RandKernelKargs.seed (rand_uniform_int 0 patW genW).1.kargs =
      RandKernelKargs.seed (rand_uniform_int (1/2) patW genW).1.kargs :=
  rand_uniform_int_deterministic Int RandKernelKargs.seed 0 (1/2) patW patW
    genW genW rfl rfl rfl

/-- Claim C9: the grouped inference dispatch passes Philox seed/offset
`{0, 0}` and `is_store_randval = false` for every parameter struct, with a
null LSE pointer and zero LSE and randval strides, while the grouped forward
(training) dispatch forwards `param.philox_seed` and `param.philox_offset`. -/
theorem grouped_rng_and_lse_marshal (p : GroupedForwardParams) :
    grouped_infer_RunWithKernel p = .ok (grouped_infer_MakeKargs p) ∧
    (grouped_infer_MakeKargs p).drop_seed = 0 ∧
    (grouped_infer_MakeKargs p).drop_offset = 0 ∧
    (grouped_infer_MakeKargs p).is_store_randval = false ∧
    (grouped_infer_MakeKargs p).lse_ptr = none ∧
    (grouped_infer_MakeKargs p).nhead_stride_lse = 0 ∧
    (grouped_infer_MakeKargs p).batch_stride_lse = 0 ∧
    (grouped_infer_MakeKargs p).stride_randval = 0 ∧
    (grouped_infer_MakeKargs p).nhead_stride_randval = 0 ∧
    (grouped_forward_MakeKargs p).drop_seed = p.philox_seed ∧
    (grouped_forward_MakeKargs p).drop_offset = p.philox_offset :=
  ⟨rfl, rfl, rfl, rfl, rfl, rfl, rfl, rfl, rfl, rfl, rfl⟩

/-- Claim C10: in the grouped forward dispatch the kernel receives
`window_left_size = window_size - 1` when `window_size > 0` and `-1`
otherwise, `window_right_size = -1` exactly when `custom_mask_type = 0` and
`0` otherwise, and local attention (`window_size > 0`) forces the masked
pipeline variant even when the causal-mask template flag is false. -/
theorem grouped_forward_window_and_masking (p : GroupedForwardParams)
    (kHasCausalMask : Bool) :
    (p.window_size > 0 →
      (grouped_forward_MakeKargs p).window_left_size = p.window_size - 1) ∧
    (¬ p.window_size > 0 →
      (grouped_forward_MakeKargs p).window_left_size = -1) ∧
    ((grouped_forward_MakeKargs p).window_right_size = -1 ↔
      p.custom_mask_type = 0) ∧
    (p.window_size > 0 →
      grouped_forward_has_masking kHasCausalMask p = true) := by
  refine ⟨fun h => ?_, fun h => ?_, ?_, fun h => ?_⟩
  · simp [grouped_forward_MakeKargs, h]
  · simp [grouped_forward_MakeKargs, h]
  · by_cases h : p.custom_mask_type = 0 <;> simp [grouped_forward_MakeKargs, h]
  · simp [grouped_forward_has_masking, h]

/-- Claim C10, witness: the window marshaling applied at a local-attention
parameter struct (`window_size = 5`, mask type 0, causal-mask flag false) and
at the windowless struct. -/
theorem grouped_forward_window_and_masking_witness :
    (grouped_forward_MakeKargs gWin5).window_left_size =
      gWin5.window_size - 1 ∧
    ((grouped_forward_MakeKargs gWin5).window_right_size = -1 ↔
      gWin5.custom_mask_type = 0) ∧
    grouped_forward_has_masking false gWin5 = true ∧
    (grouped_forward_MakeKargs gBase).window_left_size = -1 := by
  obtain ⟨a, -, c, d⟩ := grouped_forward_window_and_masking gWin5 false
  obtain ⟨-, b, -, -⟩ := grouped_forward_window_and_masking gBase false
  exact ⟨a (by decide), c, d (by decide), b (by decide)⟩

end HipFmha
